import Mathlib

/-!
Shallow embedding of `src/verification/verify_batch_tab.py`.

The script is a linear Playwright automation: launch a browser, open a page,
and inside a `try` block navigate to the app, click the "Batch Process" tab,
upload a fixture image, adjust a width input, and take a screenshot; the
`except` clause prints the error and takes a screenshot at an alternate path,
and the `finally` clause closes the browser.  Both `p.chromium.launch()`
(line 7) and `browser.new_page()` (line 8) execute BEFORE the `try` block
(line 10).

The embedding models a run as a trace of effect events (`Ev`), driven by an
environment (`Env`) that says whether browser launch and page creation
succeed, which fallible library call inside the `try` block (numbered in
execution order) is the first to throw, and what input elements the page
holds.  The page DOM is modelled only at the granularity the script touches:
a list of `<input>` elements with their `type` attribute, `value` attribute,
visibility, membership in the `.space-y-1` settings-panel container, and
current value.  Playwright semantics used: `locator(...).first` picks the
first match in DOM order; `is_visible()` on a locator with no match returns
`false` without throwing; `locator.fill(v)` sets the element's current value;
CSS `input[value='1']` matches on the `value` attribute with no restriction
on the `type` attribute; `page.screenshot(path=...)` without a `full_page`
argument uses the library default `full_page=False` (viewport only), the
`Bool` on the `screenshot` event records that flag.  Timeouts are in
milliseconds, exactly as the keyword arguments in the source; a wait with no
timeout keyword is recorded as `none` (library default), a wait with no
`state` keyword likewise records `none`.  The `except` clause's print and
screenshot and the `finally` clause's close are modelled as succeeding: the
environment's failure oracle ranges over the fallible calls of the `try`
body, which is the scope of the failure conditions under study.  An uncaught
Python exception makes the process exit with status 1; otherwise the
top-level `if __name__ == "__main__"` call returns and the exit status is 0.
-/

/-- One effect event of a run, in execution order. -/
inductive Ev where
  | launch : Ev
  | newPage : Ev
  | consolePrint (s : String) : Ev
  | printError : Ev
  | goto (url : String) : Ev
  | waitForSelector (sel : String) (timeoutMs : Option Nat) (state : Option String) : Ev
  | clickByRole (role : String) (nm : String) : Ev
  | setInputFiles (sel : String) (filePath : String) : Ev
  | fill (idx : Nat) (v : String) : Ev
  | sleepSec (n : Nat) : Ev
  | screenshot (filePath : String) (fullPage : Bool) : Ev
  | closeBrowser : Ev
deriving DecidableEq, Repr

/-- An `<input>` element of the page, at the granularity the script reads:
`type` attribute, `value` attribute, visibility, whether it sits inside the
`.space-y-1` settings-panel container, and its current (live) value. -/
structure DomInput where
  ty : String
  valueAttr : String
  visible : Bool
  inSettingsPanel : Bool
  value : String
deriving DecidableEq, Repr

/-- Environment of one run: whether `p.chromium.launch()` succeeds, whether
`browser.new_page()` succeeds, the execution-order index of the first
fallible call inside the `try` block that throws (`none`: no call throws),
and the input elements present on the page when the width step runs. -/
structure Env where
  launchOk : Bool
  newPageOk : Bool
  failAt : Option Nat
  inputs : List DomInput
deriving Repr

/-- Result of a run: the trace of completed effects, whether an exception
propagated uncaught out of `verify_batch_tab`, and the final state of the
page's input elements. -/
structure RunResult where
  trace : List Ev
  uncaught : Bool
  inputs : List DomInput
deriving Repr

/-- Success screenshot path, line 62 of the source. -/
def successPath : String := "verification/batch_tab_verified.png"

/-- Error screenshot path, line 68 of the source. -/
def errorPath : String := "verification/error.png"

/-- The straight-line fallible calls of the `try` block before the width
step, lines 11-36, each paired with the infallible prints preceding it.
Selectors are written exactly as in the source (`\x27` is the ASCII
apostrophe of the CSS attribute selectors). -/
def prefixGroups : List (List Ev × Ev) :=
  [ ([Ev.consolePrint "Navigating to app..."], Ev.goto "http://localhost:3000"),
    ([], Ev.waitForSelector "text=Image Modifier" (some 10000) none),
    ([Ev.consolePrint "Clicking Batch Process tab..."], Ev.clickByRole "tab" "Batch Process"),
    ([], Ev.waitForSelector "text=Batch Processing" none (some "visible")),
    ([Ev.consolePrint "Uploading image..."],
      Ev.waitForSelector "input[type=\x27file\x27]" none (some "attached")),
    ([], Ev.setInputFiles "input[type=\x27file\x27]" "test_image.png"),
    ([Ev.consolePrint "Waiting for image to appear in list..."],
      Ev.waitForSelector "text=test_image" (some 5000) none),
    ([Ev.consolePrint "Checking settings panel..."],
      Ev.waitForSelector "text=Image Settings" none (some "visible")) ]

/-- Run a list of grouped fallible calls starting at op counter `start`:
each group emits its prints, then either throws (if the oracle names its
counter value) or emits its fallible event and continues. -/
def runGroups (failAt : Option Nat) (start : Nat) : List (List Ev × Ev) → List Ev × Bool
  | [] => ([], false)
  | g :: rest =>
    if failAt = some start then (g.1, true)
    else
      let r := runGroups failAt (start + 1) rest
      (g.1 ++ g.2 :: r.1, r.2)

/-- Index of the first match of `page.locator("input[value=\x271\x27]")`
(line 45): the first input whose `value` attribute is the string "1",
regardless of its `type`. -/
def firstValueOneIdx (inputs : List DomInput) : Option Nat :=
  inputs.findIdx? (fun i => i.valueAttr == "1")

/-- The primary width locator resolved through `is_visible()` (line 46):
`some j` when `input[value=\x271\x27]` has a first match at index `j` and that
element is visible; `none` when there is no match or it is invisible
(`is_visible` returns `false` without throwing in both cases). -/
def primaryVisibleIdx (inputs : List DomInput) : Option Nat :=
  match firstValueOneIdx inputs with
  | some j =>
    match inputs.get? j with
    | some i => if i.visible then some j else none
    | none => none
  | none => none

/-- Index of the first match of
`page.locator(".space-y-1 input[type=\x27number\x27]")` (line 51): the first
input of `type` "number" inside the settings-panel container; `.all()`
returns matches in DOM order, and line 53 fills `inputs[0]`. -/
def fallbackIdx (inputs : List DomInput) : Option Nat :=
  inputs.findIdx? (fun i => i.inSettingsPanel && i.ty == "number")

/-- Effect of `fill("100")` on the element at index `j`: its current value
becomes "100"; attributes are unchanged. Out-of-range `j` changes nothing. -/
def fillAt (inputs : List DomInput) (j : Nat) : List DomInput :=
  match inputs.get? j with
  | some i => inputs.set j ⟨i.ty, i.valueAttr, i.visible, i.inSettingsPanel, "100"⟩
  | none => inputs

/-- The width-adjustment step, lines 44-56: try the primary locator; if its
first match is visible, fill it; otherwise fill the first settings-panel
number input if any; otherwise print a diagnostic.  `c` is the op counter on
entry; the single `fill` call, when one runs, is fallible op `c`.  Returns
(events, threw, final inputs, next op counter). -/
def widthStep (failAt : Option Nat) (c : Nat) (inputs : List DomInput) :
    List Ev × Bool × List DomInput × Nat :=
  match primaryVisibleIdx inputs with
  | some j =>
    if failAt = some c then ([], true, inputs, c)
    else ([Ev.fill j "100", Ev.consolePrint "Changed width to 100"], false, fillAt inputs j, c + 1)
  | none =>
    match fallbackIdx inputs with
    | some j =>
      if failAt = some c then ([], true, inputs, c)
      else ([Ev.fill j "100", Ev.consolePrint "Changed width to 100 (fallback)"], false,
        fillAt inputs j, c + 1)
    | none => ([Ev.consolePrint "Could not find width input"], false, inputs, c)

/-- The `try` block, lines 10-64: the straight-line calls, the width step,
`time.sleep(1)`, and the success screenshot (a fallible call, with the
library-default `full_page=False`) followed by its confirmation print.
Returns (events, threw, final inputs). -/
def tryBody (failAt : Option Nat) (inputs : List DomInput) : List Ev × Bool × List DomInput :=
  let r := runGroups failAt 0 prefixGroups
  if r.2 then (r.1, true, inputs)
  else
    let w := widthStep failAt 8 inputs
    if w.2.1 then (r.1 ++ w.1, true, w.2.2.1)
    else
      if failAt = some w.2.2.2 then (r.1 ++ w.1 ++ [Ev.sleepSec 1], true, w.2.2.1)
      else
        (r.1 ++ w.1 ++
          [Ev.sleepSec 1, Ev.screenshot successPath false,
            Ev.consolePrint "Screenshot saved to verification/batch_tab_verified.png"],
          false, w.2.2.1)

/-- The whole function `verify_batch_tab`, lines 5-70.  `launch` and
`new_page` run before the `try` block: if either throws, the exception
propagates uncaught and neither the `except` clause nor the `finally`
clause's `browser.close()` runs.  If the `try` body throws, the `except`
clause prints the error and writes the error screenshot (default
`full_page=False`), then `finally` closes the browser; on normal completion
only the close runs.  In both caught cases nothing propagates. -/
def verify_batch_tab (env : Env) : RunResult :=
  if env.launchOk = false then ⟨[], true, env.inputs⟩
  else if env.newPageOk = false then ⟨[Ev.launch], true, env.inputs⟩
  else
    let t := tryBody env.failAt env.inputs
    if t.2.1 then
      ⟨[Ev.launch, Ev.newPage] ++ t.1 ++
          [Ev.printError, Ev.screenshot errorPath false, Ev.closeBrowser],
        false, t.2.2⟩
    else
      ⟨[Ev.launch, Ev.newPage] ++ t.1 ++ [Ev.closeBrowser], false, t.2.2⟩

/-- Process exit status of `python verify_batch_tab.py` (lines 72-73): 1 on
an uncaught exception, 0 otherwise. -/
def processExit (env : Env) : Nat :=
  if (verify_batch_tab env).uncaught then 1 else 0

/-- Recognise screenshot events (a written screenshot file). -/
def isScreenshotEv : Ev → Bool
  | Ev.screenshot _ _ => true
  | _ => false

/-- Recognise `fill` events (a modification of an input element's value). -/
def isFillEv : Ev → Bool
  | Ev.fill _ _ => true
  | _ => false

/-- Recognise `wait_for_selector` events. -/
def isWaitEv : Ev → Bool
  | Ev.waitForSelector _ _ _ => true
  | _ => false

/-- The screenshot events of a trace, in order. -/
def screenshotEvents (t : List Ev) : List Ev := t.filter isScreenshotEv

/-- The fill events of a trace, in order. -/
def fillEvents (t : List Ev) : List Ev := t.filter isFillEv

/-- The wait events of a trace, in order. -/
def waitEvents (t : List Ev) : List Ev := t.filter isWaitEv

/-- Recognise the three diagnostic prints of the width step's branches,
which are mutually exclusive in the source (lines 46-56). -/
def isWidthBranchPrint : Ev → Bool
  | Ev.consolePrint s =>
    s == "Changed width to 100" || s == "Changed width to 100 (fallback)" ||
      s == "Could not find width input"
  | _ => false

/-- The `browser.close()` events of a trace, in order. -/
def closeEvents (t : List Ev) : List Ev := t.filter (fun e => e == Ev.closeBrowser)

/-- The width-branch diagnostic prints of a trace, in order. -/
def widthBranchPrints (t : List Ev) : List Ev := t.filter isWidthBranchPrint

/-- The events of the straight-line calls (lines 11-36) when none throws. -/
def fullPrefixTrace : List Ev :=
  [ Ev.consolePrint "Navigating to app...",
    Ev.goto "http://localhost:3000",
    Ev.waitForSelector "text=Image Modifier" (some 10000) none,
    Ev.consolePrint "Clicking Batch Process tab...",
    Ev.clickByRole "tab" "Batch Process",
    Ev.waitForSelector "text=Batch Processing" none (some "visible"),
    Ev.consolePrint "Uploading image...",
    Ev.waitForSelector "input[type=\x27file\x27]" none (some "attached"),
    Ev.setInputFiles "input[type=\x27file\x27]" "test_image.png",
    Ev.consolePrint "Waiting for image to appear in list...",
    Ev.waitForSelector "text=test_image" (some 5000) none,
    Ev.consolePrint "Checking settings panel...",
    Ev.waitForSelector "text=Image Settings" none (some "visible") ]

theorem runGroups_none_eq : runGroups none 0 prefixGroups = (fullPrefixTrace, false) := by
  decide

theorem runGroups_filter_nil (p : Ev → Bool) (failAt : Option Nat)
    (gs : List (List Ev × Ev)) (h : ∀ g ∈ gs, g.1.filter p = [] ∧ p g.2 = false) :
    ∀ s, ((runGroups failAt s gs).1).filter p = [] := by
  induction gs with
  | nil => intro s; simp [runGroups]
  | cons g rest ih =>
    intro s
    obtain ⟨h1, h2⟩ := h g (List.mem_cons_self g rest)
    have hrest : ∀ g ∈ rest, g.1.filter p = [] ∧ p g.2 = false :=
      fun g hg => h g (List.mem_cons_of_mem _ hg)
    simp only [runGroups]
    split
    · exact h1
    · simp [List.filter_append, List.filter_cons, h1, h2, ih hrest (s + 1)]

theorem widthStep_cases (failAt : Option Nat) (c : Nat) (ins : List DomInput) :
    (widthStep failAt c ins).1 = [] ∨
    (∃ j, (widthStep failAt c ins).1 =
      [Ev.fill j "100", Ev.consolePrint "Changed width to 100"]) ∨
    (∃ j, (widthStep failAt c ins).1 =
      [Ev.fill j "100", Ev.consolePrint "Changed width to 100 (fallback)"]) ∨
    (widthStep failAt c ins).1 = [Ev.consolePrint "Could not find width input"] := by
  unfold widthStep
  rcases hp : primaryVisibleIdx ins with _ | j
  · rcases hf : fallbackIdx ins with _ | j
    · simp [hp, hf]
    · by_cases hc : failAt = some c
      · simp [hp, hf, hc]
      · right; right; left; exact ⟨j, by simp [hp, hf, hc]⟩
  · by_cases hc : failAt = some c
    · simp [hp, hc]
    · right; left; exact ⟨j, by simp [hp, hc]⟩

theorem widthStep_filter_nil (p : Ev → Bool) (failAt : Option Nat) (c : Nat)
    (ins : List DomInput) (hf : ∀ j, p (Ev.fill j "100") = false)
    (h1 : p (Ev.consolePrint "Changed width to 100") = false)
    (h2 : p (Ev.consolePrint "Changed width to 100 (fallback)") = false)
    (h3 : p (Ev.consolePrint "Could not find width input") = false) :
    ((widthStep failAt c ins).1).filter p = [] := by
  rcases widthStep_cases failAt c ins with h | ⟨j, h⟩ | ⟨j, h⟩ | h <;>
    simp [h, List.filter_cons, hf, h1, h2, h3]

theorem widthStep_primary (failAt : Option Nat) (c : Nat) (ins : List DomInput)
    (j : Nat) (hp : primaryVisibleIdx ins = some j) :
    (widthStep failAt c ins).1 = [] ∨
    (widthStep failAt c ins).1 =
      [Ev.fill j "100", Ev.consolePrint "Changed width to 100"] := by
  unfold widthStep
  by_cases hc : failAt = some c
  · left; simp [hp, hc]
  · right; simp [hp, hc]

theorem widthStep_none_eq (c : Nat) (ins : List DomInput) :
    widthStep none c ins =
      (match primaryVisibleIdx ins with
        | some j =>
          ([Ev.fill j "100", Ev.consolePrint "Changed width to 100"], false, fillAt ins j, c + 1)
        | none =>
          match fallbackIdx ins with
          | some j =>
            ([Ev.fill j "100", Ev.consolePrint "Changed width to 100 (fallback)"], false,
              fillAt ins j, c + 1)
          | none => ([Ev.consolePrint "Could not find width input"], false, ins, c)) := by
  unfold widthStep
  rcases primaryVisibleIdx ins with _ | j
  · rcases fallbackIdx ins with _ | j <;> simp
  · simp

theorem tryBody_shape (failAt : Option Nat) (ins : List DomInput) :
    ((tryBody failAt ins).2.1 = true ∧
      ((tryBody failAt ins).1 = (runGroups failAt 0 prefixGroups).1 ∨
        (tryBody failAt ins).1 =
          (runGroups failAt 0 prefixGroups).1 ++ (widthStep failAt 8 ins).1 ∨
        (tryBody failAt ins).1 =
          (runGroups failAt 0 prefixGroups).1 ++ (widthStep failAt 8 ins).1 ++
            [Ev.sleepSec 1])) ∨
    ((tryBody failAt ins).2.1 = false ∧
      (tryBody failAt ins).1 =
        (runGroups failAt 0 prefixGroups).1 ++ (widthStep failAt 8 ins).1 ++
          [Ev.sleepSec 1, Ev.screenshot successPath false,
            Ev.consolePrint "Screenshot saved to verification/batch_tab_verified.png"] ∧
      (tryBody failAt ins).2.2 = (widthStep failAt 8 ins).2.2.1) := by
  unfold tryBody
  rcases hr : runGroups failAt 0 prefixGroups with ⟨t, b⟩
  cases b
  · rcases hw : widthStep failAt 8 ins with ⟨wt, wb, wins, wc⟩
    cases wb
    · by_cases hc : failAt = some wc
      · simp [hc]
      · simp [hc]
    · simp
  · simp

theorem run_launch_fail (env : Env) (h : env.launchOk = false) :
    verify_batch_tab env = ⟨[], true, env.inputs⟩ := by
  simp [verify_batch_tab, h]

theorem run_newPage_fail (env : Env) (h1 : env.launchOk = true)
    (h2 : env.newPageOk = false) :
    verify_batch_tab env = ⟨[Ev.launch], true, env.inputs⟩ := by
  simp [verify_batch_tab, h1, h2]

theorem run_caught (env : Env) (h1 : env.launchOk = true) (h2 : env.newPageOk = true)
    (h3 : (tryBody env.failAt env.inputs).2.1 = true) :
    verify_batch_tab env =
      ⟨[Ev.launch, Ev.newPage] ++ (tryBody env.failAt env.inputs).1 ++
          [Ev.printError, Ev.screenshot errorPath false, Ev.closeBrowser],
        false, (tryBody env.failAt env.inputs).2.2⟩ := by
  simp [verify_batch_tab, h1, h2, h3]

theorem run_normal (env : Env) (h1 : env.launchOk = true) (h2 : env.newPageOk = true)
    (h3 : (tryBody env.failAt env.inputs).2.1 = false) :
    verify_batch_tab env =
      ⟨[Ev.launch, Ev.newPage] ++ (tryBody env.failAt env.inputs).1 ++ [Ev.closeBrowser],
        false, (tryBody env.failAt env.inputs).2.2⟩ := by
  simp [verify_batch_tab, h1, h2, h3]

theorem widthStep_none_not_threw (c : Nat) (ins : List DomInput) :
    (widthStep none c ins).2.1 = false := by
  rw [widthStep_none_eq]
  rcases hp : primaryVisibleIdx ins with _ | j
  · rcases hf : fallbackIdx ins with _ | j <;> simp [hp, hf]
  · simp [hp]

theorem tryBody_none_eq (ins : List DomInput) :
    tryBody none ins =
      (fullPrefixTrace ++ (widthStep none 8 ins).1 ++
          [Ev.sleepSec 1, Ev.screenshot successPath false,
            Ev.consolePrint "Screenshot saved to verification/batch_tab_verified.png"],
        false, (widthStep none 8 ins).2.2.1) := by
  unfold tryBody
  rw [runGroups_none_eq]
  simp [widthStep_none_not_threw]

theorem run_none_eq (env : Env) (h1 : env.launchOk = true) (h2 : env.newPageOk = true)
    (h3 : env.failAt = none) :
    verify_batch_tab env =
      ⟨[Ev.launch, Ev.newPage] ++
          (fullPrefixTrace ++ (widthStep none 8 env.inputs).1 ++
            [Ev.sleepSec 1, Ev.screenshot successPath false,
              Ev.consolePrint "Screenshot saved to verification/batch_tab_verified.png"]) ++
          [Ev.closeBrowser],
        false, (widthStep none 8 env.inputs).2.2.1⟩ := by
  have h4 : (tryBody env.failAt env.inputs).2.1 = false := by
    rw [h3, tryBody_none_eq]
  rw [run_normal env h1 h2 h4, h3, tryBody_none_eq]

theorem not_mem_of_filter_nil {p : Ev → Bool} {l : List Ev} (h : l.filter p = [])
    {e : Ev} (he : p e = true) : e ∉ l := by
  intro hm
  have hmf : e ∈ l.filter p := List.mem_filter.mpr ⟨hm, he⟩
  rw [h] at hmf
  exact absurd hmf (List.not_mem_nil e)

theorem tryBody_screenshots (failAt : Option Nat) (ins : List DomInput) :
    screenshotEvents (tryBody failAt ins).1 =
      (if (tryBody failAt ins).2.1 = true then []
        else [Ev.screenshot successPath false]) := by
  have hpre : ((runGroups failAt 0 prefixGroups).1).filter isScreenshotEv = [] :=
    runGroups_filter_nil isScreenshotEv failAt prefixGroups (by decide) 0
  have hw : ((widthStep failAt 8 ins).1).filter isScreenshotEv = [] :=
    widthStep_filter_nil isScreenshotEv failAt 8 ins (fun j => rfl) rfl rfl rfl
  have htail :
      [Ev.sleepSec 1, Ev.screenshot successPath false,
        Ev.consolePrint "Screenshot saved to verification/batch_tab_verified.png"].filter
          isScreenshotEv = [Ev.screenshot successPath false] := by decide
  rcases tryBody_shape failAt ins with ⟨ht, h | h | h⟩ | ⟨ht, h, _⟩ <;>
    rw [screenshotEvents, h, ht] <;>
    simp [List.filter_append, List.filter_cons, isScreenshotEv, hpre, hw, htail]

theorem tryBody_filter_to_width (p : Ev → Bool) (failAt : Option Nat)
    (ins : List DomInput)
    (hpre : ∀ g ∈ prefixGroups, g.1.filter p = [] ∧ p g.2 = false)
    (hsleep : p (Ev.sleepSec 1) = false)
    (hshot : p (Ev.screenshot successPath false) = false)
    (hpr : p (Ev.consolePrint "Screenshot saved to verification/batch_tab_verified.png") =
      false) :
    ((tryBody failAt ins).1).filter p = ((widthStep failAt 8 ins).1).filter p ∨
    ((tryBody failAt ins).1).filter p = [] := by
  have hr := runGroups_filter_nil p failAt prefixGroups hpre 0
  rcases tryBody_shape failAt ins with ⟨_, h | h | h⟩ | ⟨_, h, _⟩ <;>
    rw [h] <;>
    simp [List.filter_append, hr, List.filter_cons, hsleep, hshot, hpr]

theorem run_filter_to_width (p : Ev → Bool) (env : Env)
    (hpre : ∀ g ∈ prefixGroups, g.1.filter p = [] ∧ p g.2 = false)
    (hlaunch : p Ev.launch = false) (hnew : p Ev.newPage = false)
    (hperr : p Ev.printError = false) (hclose : p Ev.closeBrowser = false)
    (hsleep : p (Ev.sleepSec 1) = false)
    (hshotS : p (Ev.screenshot successPath false) = false)
    (hshotE : p (Ev.screenshot errorPath false) = false)
    (hpr : p (Ev.consolePrint "Screenshot saved to verification/batch_tab_verified.png") =
      false) :
    ((verify_batch_tab env).trace).filter p =
      ((widthStep env.failAt 8 env.inputs).1).filter p ∨
    ((verify_batch_tab env).trace).filter p = [] := by
  by_cases h1 : env.launchOk = true
  · by_cases h2 : env.newPageOk = true
    · have hb := tryBody_filter_to_width p env.failAt env.inputs hpre hsleep hshotS hpr
      by_cases h3 : (tryBody env.failAt env.inputs).2.1 = true
      · rw [run_caught env h1 h2 h3]
        rcases hb with hb | hb <;>
          simp [List.filter_append, List.filter_cons, hlaunch, hnew, hperr, hclose,
            hshotE, hb]
      · have h3f : (tryBody env.failAt env.inputs).2.1 = false := by
          revert h3; cases (tryBody env.failAt env.inputs).2.1 <;> simp
        rw [run_normal env h1 h2 h3f]
        rcases hb with hb | hb <;>
          simp [List.filter_append, List.filter_cons, hlaunch, hnew, hclose, hb]
    · have h2f : env.newPageOk = false := by
        revert h2; cases env.newPageOk <;> simp
      rw [run_newPage_fail env h1 h2f]
      right
      simp [List.filter_cons, hlaunch]
  · have h1f : env.launchOk = false := by
      revert h1; cases env.launchOk <;> simp
    rw [run_launch_fail env h1f]
    right
    simp

theorem successPath_ne_errorPath : successPath ≠ errorPath := by decide

/-- C1: if any fallible call of the `try` body (steps 2-11: navigate, the
waits, the tab click, the file upload, the width-adjustment fill, the
success screenshot) throws, the runner catches the exception at the
outermost scope: nothing propagates, a diagnostic message is printed, a
screenshot is written to the fixed alternate path `verification/error.png`,
and the remaining steps are skipped — in particular no success screenshot
(at `verification/batch_tab_verified.png`) is written. -/
theorem C1_step_failure_caught (env : Env) (h1 : env.launchOk = true)
    (h2 : env.newPageOk = true)
    (h3 : (tryBody env.failAt env.inputs).2.1 = true) :
    (verify_batch_tab env).uncaught = false ∧
    Ev.printError ∈ (verify_batch_tab env).trace ∧
    Ev.screenshot errorPath false ∈ (verify_batch_tab env).trace ∧
    Ev.screenshot successPath false ∉ (verify_batch_tab env).trace ∧
    Ev.screenshot successPath true ∉ (verify_batch_tab env).trace := by
  have hshots := tryBody_screenshots env.failAt env.inputs
  rw [h3] at hshots
  simp only [if_pos, screenshotEvents] at hshots
  have hns : ∀ b, Ev.screenshot successPath b ∉ (tryBody env.failAt env.inputs).1 :=
    fun b => not_mem_of_filter_nil hshots rfl
  rw [run_caught env h1 h2 h3]
  refine ⟨rfl, by simp, by simp, ?_, ?_⟩ <;>
    simp [List.mem_append, hns false, hns true, successPath_ne_errorPath]

/-- C1 witness: a concrete run in which the first `try`-body call (the
navigation) throws. -/
theorem C1_step_failure_caught_witness :
    (verify_batch_tab ⟨true, true, some 0, []⟩).uncaught = false ∧
    Ev.printError ∈ (verify_batch_tab ⟨true, true, some 0, []⟩).trace ∧
    Ev.screenshot errorPath false ∈ (verify_batch_tab ⟨true, true, some 0, []⟩).trace ∧
    Ev.screenshot successPath false ∉ (verify_batch_tab ⟨true, true, some 0, []⟩).trace ∧
    Ev.screenshot successPath true ∉ (verify_batch_tab ⟨true, true, some 0, []⟩).trace :=
  C1_step_failure_caught ⟨true, true, some 0, []⟩ rfl rfl (by decide)

/-- C2: under the listed failure conditions — unreachable target, missing
fixture file, missing width input, or any other `try`-body step failure,
all of which presuppose that browser launch and page creation succeeded —
`verify_batch_tab` never lets an exception propagate to its caller and the
process exit status is 0. -/
theorem C2_no_uncaught_exit_zero (env : Env) (h1 : env.launchOk = true)
    (h2 : env.newPageOk = true) :
    (verify_batch_tab env).uncaught = false ∧ processExit env = 0 := by
  have hu : (verify_batch_tab env).uncaught = false := by
    by_cases h3 : (tryBody env.failAt env.inputs).2.1 = true
    · rw [run_caught env h1 h2 h3]
    · have h3f : (tryBody env.failAt env.inputs).2.1 = false := by
        revert h3; cases (tryBody env.failAt env.inputs).2.1 <;> simp
      rw [run_normal env h1 h2 h3f]
  exact ⟨hu, by simp [processExit, hu]⟩

/-- C2 witness: a concrete failing run (navigation throws) with no
propagated exception and exit status 0. -/
theorem C2_no_uncaught_exit_zero_witness :
    (verify_batch_tab ⟨true, true, some 0, []⟩).uncaught = false ∧
    processExit ⟨true, true, some 0, []⟩ = 0 :=
  C2_no_uncaught_exit_zero ⟨true, true, some 0, []⟩ rfl rfl

/-- C3: the code evaluated at the failing input — browser launch succeeds
but `browser.new_page()` (line 8) throws.  Both calls precede the `try`
(line 10), so the `finally` clause's `browser.close()` (line 70) is never in
scope: the run ends with zero close events and a propagated exception,
violating the guaranteed close-exactly-once-on-every-exit-path that the
specification states as the intent of the scoped-acquisition pattern. -/
theorem C3_missing_close_on_newPage_failure :
    closeEvents (verify_batch_tab
      ⟨true, false, none, [⟨"number", "1", true, true, "1"⟩]⟩).trace = [] ∧
    (verify_batch_tab
      ⟨true, false, none, [⟨"number", "1", true, true, "1"⟩]⟩).uncaught = true := by
  decide

/-- Complement of the leak above: on every run in which page creation
succeeds — normal completion or a caught `try`-body exception — the
`finally` clause closes the browser exactly once. -/
theorem run_close_exactly_once (env : Env) (h1 : env.launchOk = true)
    (h2 : env.newPageOk = true) :
    closeEvents (verify_batch_tab env).trace = [Ev.closeBrowser] := by
  have hpre : ∀ g ∈ prefixGroups,
      g.1.filter (fun e => e == Ev.closeBrowser) = [] ∧
      ((fun e => e == Ev.closeBrowser) g.2) = false := by decide
  have hr := runGroups_filter_nil (fun e => e == Ev.closeBrowser) env.failAt
    prefixGroups hpre 0
  have hw := widthStep_filter_nil (fun e => e == Ev.closeBrowser) env.failAt 8
    env.inputs (fun j => rfl) rfl rfl rfl
  have htb : ((tryBody env.failAt env.inputs).1).filter
      (fun e => e == Ev.closeBrowser) = [] := by
    rcases tryBody_shape env.failAt env.inputs with ⟨_, h | h | h⟩ | ⟨_, h, _⟩ <;>
      rw [h] <;> simp [List.filter_append, List.filter_cons, hr, hw]
  by_cases h3 : (tryBody env.failAt env.inputs).2.1 = true
  · rw [run_caught env h1 h2 h3]
    simp [closeEvents, List.filter_append, List.filter_cons, htb]
  · have h3f : (tryBody env.failAt env.inputs).2.1 = false := by
      revert h3; cases (tryBody env.failAt env.inputs).2.1 <;> simp
    rw [run_normal env h1 h2 h3f]
    simp [closeEvents, List.filter_append, List.filter_cons, htb]

/-- C4 counterexample: a run in which the browser launches but page creation
throws writes no screenshot at all, refuting "exactly one screenshot per run
in which the browser launches". -/
theorem C4_counterexample :
    Ev.launch ∈ (verify_batch_tab ⟨true, false, none, []⟩).trace ∧
    screenshotEvents (verify_batch_tab ⟨true, false, none, []⟩).trace = [] := by
  decide

/-- C4 amended: for every run in which page creation (and hence the launch)
succeeds, exactly one screenshot file is written: the success file
`verification/batch_tab_verified.png` on normal completion of the `try`
body, the error file `verification/error.png` when it throws — never both,
never neither. -/
theorem C4_exactly_one_screenshot (env : Env) (h1 : env.launchOk = true)
    (h2 : env.newPageOk = true) :
    screenshotEvents (verify_batch_tab env).trace =
      [Ev.screenshot successPath false] ∨
    screenshotEvents (verify_batch_tab env).trace =
      [Ev.screenshot errorPath false] := by
  have hshots := tryBody_screenshots env.failAt env.inputs
  by_cases h3 : (tryBody env.failAt env.inputs).2.1 = true
  · right
    rw [h3] at hshots
    simp only [if_pos, screenshotEvents] at hshots
    rw [run_caught env h1 h2 h3]
    simp [screenshotEvents, List.filter_append, List.filter_cons, isScreenshotEv,
      hshots]
  · have h3f : (tryBody env.failAt env.inputs).2.1 = false := by
      revert h3; cases (tryBody env.failAt env.inputs).2.1 <;> simp
    left
    rw [h3f] at hshots
    simp only [Bool.false_eq_true, if_false, screenshotEvents] at hshots
    rw [run_normal env h1 h2 h3f]
    simp [screenshotEvents, List.filter_append, List.filter_cons, isScreenshotEv,
      hshots]

/-- C4 amended witness: a fully successful concrete run writes exactly the
success screenshot. -/
theorem C4_exactly_one_screenshot_witness :
    screenshotEvents (verify_batch_tab ⟨true, true, none, []⟩).trace =
      [Ev.screenshot successPath false] ∨
    screenshotEvents (verify_batch_tab ⟨true, true, none, []⟩).trace =
      [Ev.screenshot errorPath false] :=
  C4_exactly_one_screenshot ⟨true, true, none, []⟩ rfl rfl

/-- C5 counterexample: a concrete fully successful run writes the success
screenshot with the library-default viewport capture (`full_page=False`,
line 63 passes only `path`); no full-page screenshot
(`full_page=True`) is ever taken, refuting "captures a full-page screenshot
(the whole scrollable page)". -/
theorem C5_counterexample :
    Ev.screenshot successPath false ∈
      (verify_batch_tab ⟨true, true, none,
        [⟨"number", "1", true, true, "1"⟩]⟩).trace ∧
    Ev.screenshot successPath true ∉
      (verify_batch_tab ⟨true, true, none,
        [⟨"number", "1", true, true, "1"⟩]⟩).trace := by
  decide

/-- C5 amended: on the success path, the final step captures a screenshot
with the library default capture mode (viewport, `full_page=False` — not the
whole scrollable page) and writes it to the fixed path
`verification/batch_tab_verified.png`; it is the only screenshot of the
run, and no full-page screenshot is taken. -/
theorem C5_viewport_screenshot (env : Env) (h1 : env.launchOk = true)
    (h2 : env.newPageOk = true) (h3 : env.failAt = none) :
    screenshotEvents (verify_batch_tab env).trace =
      [Ev.screenshot successPath false] ∧
    Ev.screenshot successPath true ∉ (verify_batch_tab env).trace := by
  have h4 : (tryBody env.failAt env.inputs).2.1 = false := by
    rw [h3, tryBody_none_eq]
  have hshots := tryBody_screenshots env.failAt env.inputs
  rw [h4] at hshots
  simp only [Bool.false_eq_true, if_false, screenshotEvents] at hshots
  constructor
  · rw [run_normal env h1 h2 h4]
    simp [screenshotEvents, List.filter_append, List.filter_cons, isScreenshotEv,
      hshots]
  · have hnt : Ev.screenshot successPath true ∉ (tryBody env.failAt env.inputs).1 := by
      intro hm
      have hmf : Ev.screenshot successPath true ∈
          List.filter isScreenshotEv (tryBody env.failAt env.inputs).1 :=
        List.mem_filter.mpr ⟨hm, rfl⟩
      rw [hshots] at hmf
      simp at hmf
    rw [run_normal env h1 h2 h4]
    simp [List.mem_append, hnt]

/-- C5 amended witness: concrete successful run. -/
theorem C5_viewport_screenshot_witness :
    screenshotEvents (verify_batch_tab ⟨true, true, none, []⟩).trace =
      [Ev.screenshot successPath false] ∧
    Ev.screenshot successPath true ∉ (verify_batch_tab ⟨true, true, none, []⟩).trace :=
  C5_viewport_screenshot ⟨true, true, none, []⟩ rfl rfl rfl

/-- C6 counterexample: the page holds, in DOM order, a visible text input
with `value` attribute "1" whose current value is "7", and a visible numeric
input (inside the settings panel) whose current value is "1".  The claim
demands that the numeric input with current value "1" be set to "100"; the
code's primary locator `input[value=\x271\x27]` instead matches the text input by
its `value` attribute and fills it — after the run the numeric input still
holds "1" and the text input holds "100". -/
theorem C6_counterexample :
    (verify_batch_tab ⟨true, true, none,
        [⟨"text", "1", true, false, "7"⟩, ⟨"number", "5", true, true, "1"⟩]⟩).inputs =
      [⟨"text", "1", true, false, "100"⟩, ⟨"number", "5", true, true, "1"⟩] := by
  decide

/-- C6 amended: the width step tries an ordered fallback chain: if the first
input whose `value` ATTRIBUTE is the literal string "1" (of any input type,
first in DOM order) exists and is visible, its value is set to "100";
otherwise, if a numeric input exists within the settings-panel container,
the first such input is set to "100"; otherwise no value is changed, only a
diagnostic message is recorded, no error is raised, and the run still
reaches the success screenshot path. -/
theorem C6_width_fallback_chain (env : Env) (h1 : env.launchOk = true)
    (h2 : env.newPageOk = true) (h3 : env.failAt = none) :
    (∀ j, primaryVisibleIdx env.inputs = some j →
      (verify_batch_tab env).inputs = fillAt env.inputs j ∧
      Ev.consolePrint "Changed width to 100" ∈ (verify_batch_tab env).trace ∧
      Ev.screenshot successPath false ∈ (verify_batch_tab env).trace) ∧
    (primaryVisibleIdx env.inputs = none → ∀ j, fallbackIdx env.inputs = some j →
      (verify_batch_tab env).inputs = fillAt env.inputs j ∧
      Ev.consolePrint "Changed width to 100 (fallback)" ∈ (verify_batch_tab env).trace ∧
      Ev.screenshot successPath false ∈ (verify_batch_tab env).trace) ∧
    (primaryVisibleIdx env.inputs = none → fallbackIdx env.inputs = none →
      (verify_batch_tab env).inputs = env.inputs ∧
      Ev.consolePrint "Could not find width input" ∈ (verify_batch_tab env).trace ∧
      (verify_batch_tab env).uncaught = false ∧
      Ev.screenshot successPath false ∈ (verify_batch_tab env).trace) := by
  rw [run_none_eq env h1 h2 h3]
  refine ⟨?_, ?_, ?_⟩
  · intro j hp
    simp [widthStep_none_eq, hp, List.mem_append]
  · intro hp j hf
    simp [widthStep_none_eq, hp, hf, List.mem_append]
  · intro hp hf
    simp [widthStep_none_eq, hp, hf, List.mem_append]

/-- C6 amended witness: concrete run with no width input at all — nothing is
changed, the diagnostic is printed, and the success screenshot is still
taken. -/
theorem C6_width_fallback_chain_witness :
    (verify_batch_tab ⟨true, true, none, []⟩).inputs = [] ∧
    Ev.consolePrint "Could not find width input" ∈
      (verify_batch_tab ⟨true, true, none, []⟩).trace ∧
    (verify_batch_tab ⟨true, true, none, []⟩).uncaught = false ∧
    Ev.screenshot successPath false ∈ (verify_batch_tab ⟨true, true, none, []⟩).trace :=
  (C6_width_fallback_chain ⟨true, true, none, []⟩ rfl rfl rfl).2.2 rfl rfl

/-- C7: on a successful run the wait for "Image Modifier" carries a
10000 ms (10 s) timeout, the wait for the uploaded file's base name
"test_image" carries a 5000 ms (5 s) timeout, and the waits for
"Batch Processing" and "Image Settings" (and the file-input wait) carry no
timeout argument (library default). -/
theorem C7_wait_timeouts (env : Env) (h1 : env.launchOk = true)
    (h2 : env.newPageOk = true) (h3 : env.failAt = none) :
    waitEvents (verify_batch_tab env).trace =
      [Ev.waitForSelector "text=Image Modifier" (some 10000) none,
        Ev.waitForSelector "text=Batch Processing" none (some "visible"),
        Ev.waitForSelector "input[type=\x27file\x27]" none (some "attached"),
        Ev.waitForSelector "text=test_image" (some 5000) none,
        Ev.waitForSelector "text=Image Settings" none (some "visible")] := by
  rw [run_none_eq env h1 h2 h3]
  have hw := widthStep_filter_nil isWaitEv none 8 env.inputs (fun j => rfl) rfl rfl rfl
  simp [waitEvents, List.filter_append, List.filter_cons, isWaitEv, fullPrefixTrace, hw]

/-- C7 witness: concrete successful run. -/
theorem C7_wait_timeouts_witness :
    waitEvents (verify_batch_tab ⟨true, true, none, []⟩).trace =
      [Ev.waitForSelector "text=Image Modifier" (some 10000) none,
        Ev.waitForSelector "text=Batch Processing" none (some "visible"),
        Ev.waitForSelector "input[type=\x27file\x27]" none (some "attached"),
        Ev.waitForSelector "text=test_image" (some 5000) none,
        Ev.waitForSelector "text=Image Settings" none (some "visible")] :=
  C7_wait_timeouts ⟨true, true, none, []⟩ rfl rfl rfl

/-- C8: on the success path (here with the width input found by the primary
locator at index `j`) the interaction steps occur strictly in the specified
order — navigate, wait "Image Modifier", click the "Batch Process" tab, wait
"Batch Processing", wait for the file input, set it to `test_image.png`,
wait for the base name, wait "Image Settings", fill the width input, sleep
one second, screenshot — and the trace lists each step exactly once (no
retries). -/
theorem C8_success_order (env : Env) (j : Nat) (h1 : env.launchOk = true)
    (h2 : env.newPageOk = true) (h3 : env.failAt = none)
    (hp : primaryVisibleIdx env.inputs = some j) :
    (verify_batch_tab env).trace =
      [Ev.launch, Ev.newPage,
        Ev.consolePrint "Navigating to app...",
        Ev.goto "http://localhost:3000",
        Ev.waitForSelector "text=Image Modifier" (some 10000) none,
        Ev.consolePrint "Clicking Batch Process tab...",
        Ev.clickByRole "tab" "Batch Process",
        Ev.waitForSelector "text=Batch Processing" none (some "visible"),
        Ev.consolePrint "Uploading image...",
        Ev.waitForSelector "input[type=\x27file\x27]" none (some "attached"),
        Ev.setInputFiles "input[type=\x27file\x27]" "test_image.png",
        Ev.consolePrint "Waiting for image to appear in list...",
        Ev.waitForSelector "text=test_image" (some 5000) none,
        Ev.consolePrint "Checking settings panel...",
        Ev.waitForSelector "text=Image Settings" none (some "visible"),
        Ev.fill j "100",
        Ev.consolePrint "Changed width to 100",
        Ev.sleepSec 1,
        Ev.screenshot successPath false,
        Ev.consolePrint "Screenshot saved to verification/batch_tab_verified.png",
        Ev.closeBrowser] := by
  rw [run_none_eq env h1 h2 h3]
  simp [widthStep_none_eq, hp, fullPrefixTrace]

/-- C8 witness: concrete run with one visible width input at index 0. -/
theorem C8_success_order_witness :
    (verify_batch_tab ⟨true, true, none, [⟨"number", "1", true, true, "1"⟩]⟩).trace =
      [Ev.launch, Ev.newPage,
        Ev.consolePrint "Navigating to app...",
        Ev.goto "http://localhost:3000",
        Ev.waitForSelector "text=Image Modifier" (some 10000) none,
        Ev.consolePrint "Clicking Batch Process tab...",
        Ev.clickByRole "tab" "Batch Process",
        Ev.waitForSelector "text=Batch Processing" none (some "visible"),
        Ev.consolePrint "Uploading image...",
        Ev.waitForSelector "input[type=\x27file\x27]" none (some "attached"),
        Ev.setInputFiles "input[type=\x27file\x27]" "test_image.png",
        Ev.consolePrint "Waiting for image to appear in list...",
        Ev.waitForSelector "text=test_image" (some 5000) none,
        Ev.consolePrint "Checking settings panel...",
        Ev.waitForSelector "text=Image Settings" none (some "visible"),
        Ev.fill 0 "100",
        Ev.consolePrint "Changed width to 100",
        Ev.sleepSec 1,
        Ev.screenshot successPath false,
        Ev.consolePrint "Screenshot saved to verification/batch_tab_verified.png",
        Ev.closeBrowser] :=
  C8_success_order ⟨true, true, none, [⟨"number", "1", true, true, "1"⟩]⟩ 0
    rfl rfl rfl (by decide)

/-- C9: the catch-all handler covers only the steps after the page is
created — an exception thrown by browser launch or by page creation
propagates uncaught to the caller, and in that case the explicit
`browser.close()` of the cleanup clause is never executed. -/
theorem C9_prelaunch_exception_uncaught (env : Env)
    (h : env.launchOk = false ∨ env.newPageOk = false) :
    (verify_batch_tab env).uncaught = true ∧
    Ev.closeBrowser ∉ (verify_batch_tab env).trace := by
  rcases h with h | h
  · rw [run_launch_fail env h]
    exact ⟨rfl, by simp⟩
  · by_cases h1 : env.launchOk = true
    · rw [run_newPage_fail env h1 h]
      exact ⟨rfl, by simp⟩
    · have h1f : env.launchOk = false := by
        revert h1; cases env.launchOk <;> simp
      rw [run_launch_fail env h1f]
      exact ⟨rfl, by simp⟩

/-- C9 witness: concrete run in which page creation throws. -/
theorem C9_prelaunch_exception_uncaught_witness :
    (verify_batch_tab ⟨true, false, none, []⟩).uncaught = true ∧
    Ev.closeBrowser ∉ (verify_batch_tab ⟨true, false, none, []⟩).trace :=
  C9_prelaunch_exception_uncaught ⟨true, false, none, []⟩ (Or.inr rfl)

/-- C10: in every run at most one input element's value is modified (at most
one fill event), the three width-adjustment branches are mutually exclusive
(at most one branch diagnostic is printed), and when the primary locator's
input is visible at index `j`, the fallback branches are never taken and any
fill of the run targets exactly index `j` with the value "100". -/
theorem C10_at_most_one_fill (env : Env) :
    (fillEvents (verify_batch_tab env).trace).length ≤ 1 ∧
    (widthBranchPrints (verify_batch_tab env).trace).length ≤ 1 ∧
    (∀ j, primaryVisibleIdx env.inputs = some j →
      Ev.consolePrint "Changed width to 100 (fallback)" ∉ (verify_batch_tab env).trace ∧
      Ev.consolePrint "Could not find width input" ∉ (verify_batch_tab env).trace ∧
      ∀ i v, Ev.fill i v ∈ (verify_batch_tab env).trace → i = j ∧ v = "100") := by
  have hfill := run_filter_to_width isFillEv env (by decide)
    rfl rfl rfl rfl rfl rfl rfl rfl
  have hwp := run_filter_to_width isWidthBranchPrint env (by decide)
    rfl rfl rfl rfl rfl rfl rfl rfl
  have efill : ∀ j, isWidthBranchPrint (Ev.fill j "100") = false := fun j => rfl
  have emain : isWidthBranchPrint (Ev.consolePrint "Changed width to 100") = true := by
    decide
  have efb : isWidthBranchPrint
      (Ev.consolePrint "Changed width to 100 (fallback)") = true := by decide
  have egu : isWidthBranchPrint
      (Ev.consolePrint "Could not find width input") = true := by decide
  have hne1 : ("Changed width to 100 (fallback)" : String) ≠ "Changed width to 100" := by
    decide
  have hne2 : ("Could not find width input" : String) ≠ "Changed width to 100" := by
    decide
  refine ⟨?_, ?_, ?_⟩
  · simp only [fillEvents]
    rcases hfill with h | h <;> rw [h]
    · rcases widthStep_cases env.failAt 8 env.inputs with hw | ⟨j, hw⟩ | ⟨j, hw⟩ | hw <;>
        simp [hw, List.filter_cons, isFillEv]
    · simp
  · simp only [widthBranchPrints]
    rcases hwp with h | h <;> rw [h]
    · rcases widthStep_cases env.failAt 8 env.inputs with hw | ⟨j, hw⟩ | ⟨j, hw⟩ | hw <;>
        simp [hw, List.filter_cons, efill, emain, efb, egu]
    · simp
  · intro j hp
    have hprim := widthStep_primary env.failAt 8 env.inputs j hp
    refine ⟨?_, ?_, ?_⟩
    · intro hm
      have hmf : Ev.consolePrint "Changed width to 100 (fallback)" ∈
          List.filter isWidthBranchPrint (verify_batch_tab env).trace :=
        List.mem_filter.mpr ⟨hm, efb⟩
      rcases hwp with h | h <;> rw [h] at hmf
      · rcases hprim with hw | hw <;> rw [hw] at hmf
        · simp at hmf
        · simp [List.filter_cons, efill, emain, hne1] at hmf
      · simp at hmf
    · intro hm
      have hmf : Ev.consolePrint "Could not find width input" ∈
          List.filter isWidthBranchPrint (verify_batch_tab env).trace :=
        List.mem_filter.mpr ⟨hm, egu⟩
      rcases hwp with h | h <;> rw [h] at hmf
      · rcases hprim with hw | hw <;> rw [hw] at hmf
        · simp at hmf
        · simp [List.filter_cons, efill, emain, hne2] at hmf
      · simp at hmf
    · intro i v hm
      have hmf : Ev.fill i v ∈
          List.filter isFillEv (verify_batch_tab env).trace :=
        List.mem_filter.mpr ⟨hm, rfl⟩
      rcases hfill with h | h <;> rw [h] at hmf
      · rcases hprim with hw | hw <;> rw [hw] at hmf
        · simp at hmf
        · simp [List.filter_cons, isFillEv] at hmf
          exact hmf
      · simp at hmf

/-- C10 witness: concrete run with the primary width input at index 0. -/
theorem C10_at_most_one_fill_witness :
    (fillEvents (verify_batch_tab ⟨true, true, none,
        [⟨"number", "1", true, true, "1"⟩]⟩).trace).length ≤ 1 ∧
    Ev.consolePrint "Changed width to 100 (fallback)" ∉
      (verify_batch_tab ⟨true, true, none, [⟨"number", "1", true, true, "1"⟩]⟩).trace :=
  ⟨(C10_at_most_one_fill ⟨true, true, none, [⟨"number", "1", true, true, "1"⟩]⟩).1,
    ((C10_at_most_one_fill ⟨true, true, none,
        [⟨"number", "1", true, true, "1"⟩]⟩).2.2 0 (by decide)).1⟩
